import Mathlib

/-!
The apsc active/passive sidecar.

A shallow embedding of `main.go`: the `SideCar` struct, the two label
operations `markActive` and `markPassive`, the lock descriptor built by
`generateLock`, and `newSideCar`.

The Kubernetes client is the only collaborator.  It is modelled by the label
map the named pod currently carries (`remote`), an `Oracle` that fixes whether
the `Get` and the `Update` of one operation return an error, and a trace of the
API calls the process made.  A successful `Update` replaces the pod's label map
by the map that was sent; a failed one leaves it as it was.  The API keeps no
empty label map: the `labels` field is `omitempty`, so a pod without labels is
stored without the field and served with the nil map (`Labels.served`).
`klog.Fatalf` ends the process (`Status.fatal`), a write to a nil Go map panics
(`Status.panicked`); `klog.Info` and `klog.Errorf` have no modelled effect.
-/

namespace Apsc

/-! ## Go maps -/

/-- Entries of a Go `map[string]string` as an association list; the first
binding of a key is the key's value. -/
abbrev LabelMap := List (String × String)

/-- A value of Go type `map[string]string`, as `pod.GetLabels()` returns it:
`none` is the nil map (a pod without labels), `some l` an allocated map. -/
abbrev Labels := Option LabelMap

/-- The label map as the API stores and serves it: the `labels` field of the
object metadata is `omitempty`, so an empty map is dropped and decodes as the
nil map. -/
def Labels.served : Labels → Labels
  | none => none
  | some [] => none
  | some (p :: l) => some (p :: l)

/-- Go `v, exists := m[k]`: `none` when the key is absent; reading a nil map is
allowed and finds nothing. -/
def Labels.get? (m : Labels) (k : String) : Option String :=
  match m with
  | none => none
  | some l => l.lookup k

/-- Go `m[k]` in value position: the zero value `""` when the key is absent. -/
def Labels.val (m : Labels) (k : String) : String :=
  (m.get? k).getD ""

/-- Go `delete(m, k)` on an allocated map. -/
def LabelMap.delete (l : LabelMap) (k : String) : LabelMap :=
  l.filter (fun p => p.1 != k)

/-- Go `m[k] = v` on an allocated map. -/
def LabelMap.set (l : LabelMap) (k v : String) : LabelMap :=
  (k, v) :: l.delete k

/-- Go `delete(m, k)`: a no-op on the nil map. -/
def Labels.delete (m : Labels) (k : String) : Labels :=
  match m with
  | none => none
  | some l => some (l.delete k)

/-- Go `m[k] = v`: the map afterwards, or `none` for the runtime panic
"assignment to entry in nil map". -/
def Labels.set (m : Labels) (k v : String) : Option Labels :=
  match m with
  | none => none
  | some l => some (some (l.set k v))

/-! ## Data model -/

/-- The fields of `resourcelock.LeaseLock` that `generateLock` fills in. -/
structure LeaseLock where
  /-- Field `LeaseMeta.Name`. -/
  leaseName : String
  /-- Field `LeaseMeta.Namespace`. -/
  leaseNamespace : String
  /-- Field `LockConfig.Identity`. -/
  identity : String
deriving DecidableEq, Repr

/-- The `SideCar` struct.  `ctx` and `client` are handles to the collaborator
and carry no state of their own; `namespace` is spelled `podNamespace`. -/
structure SideCar where
  lock : Option LeaseLock
  podNamespace : String
  name : String
  key : String
  active : Bool
deriving DecidableEq, Repr

/-- The two label operations. -/
inductive Op where
  | markActive
  | markPassive
deriving DecidableEq, Repr

/-- One call of the pod API made by the process, with whether it returned
without error.  An update records the operation that made it and the label map
it sent. -/
inductive Call where
  | get (ok : Bool)
  | update (caller : Op) (sent : Labels) (ok : Bool)
deriving DecidableEq, Repr

/-- Outcome of the API calls of one operation, chosen by the environment. -/
structure Oracle where
  getOk : Bool
  updateOk : Bool
deriving DecidableEq, Repr

/-- How a call into the sidecar ended. -/
inductive Status where
  /-- The function returned to its caller. -/
  | returned
  /-- The process exited through `klog.Fatalf`. -/
  | fatal
  /-- Runtime panic: assignment to entry in nil map. -/
  | panicked
deriving DecidableEq, Repr

/-- What one operation (or a sequence of them) leaves behind: the in-memory
struct, the pod's label map in the cluster, the API calls made, and how it
ended. -/
structure Run where
  sc : SideCar
  remote : Labels
  trace : List Call
  status : Status
deriving DecidableEq, Repr

/-! ## The client -/

/-- Go `s.client.CoreV1().Pods(ns).Get(ctx, name, ...)`: the pod's labels, or
`none` for `err != nil`; with the call made. -/
def clientGet (remote : Labels) (o : Oracle) : Option Labels × List Call :=
  if o.getOk then (some remote.served, [Call.get true]) else (none, [Call.get false])

/-- Go `s.client.CoreV1().Pods(ns).Update(ctx, pod, ...)` with the pod carrying
`sent`: `true` for `err == nil`, the pod's labels afterwards, and the call
made. -/
def clientUpdate (caller : Op) (remote : Labels) (sent : Labels) (o : Oracle) :
    Bool × Labels × List Call :=
  if o.updateOk then (true, sent.served, [Call.update caller sent true])
  else (false, remote, [Call.update caller sent false])

/-! ## The operations -/

/-- Go `func (s *SideCar) markActive()`. -/
def markActive (s : SideCar) (remote : Labels) (o : Oracle) : Run :=
  match clientGet remote o with
  | (some pod, t1) =>
    -- if _, exists := pod.GetLabels()[s.key]; !exists
    if (pod.get? s.key).isNone then
      -- labels := pod.GetLabels(); labels[s.key] = "active"
      match pod.set s.key "active" with
      | none => { sc := s, remote := remote, trace := t1, status := Status.panicked }
      | some labels =>
        -- pod.SetLabels(labels); Update(ctx, pod, ...)
        match clientUpdate Op.markActive remote labels o with
        | (false, remote2, t2) =>
          { sc := s, remote := remote2, trace := t1 ++ t2, status := Status.returned }
        | (true, remote2, t2) =>
          { sc := { s with active := true }, remote := remote2, trace := t1 ++ t2,
            status := Status.returned }
    else
      { sc := s, remote := remote, trace := t1, status := Status.returned }
  | (none, t1) =>
    -- klog.Fatalf("failed to list pods: %s", err)
    { sc := s, remote := remote, trace := t1, status := Status.fatal }

/-- Go `func (s *SideCar) markPassive()`. -/
def markPassive (s : SideCar) (remote : Labels) (o : Oracle) : Run :=
  if s.active then
    match clientGet remote o with
    | (some pod, t1) =>
      -- if _, exists := pod.GetLabels()[s.key]; exists
      if (pod.get? s.key).isSome then
        -- labels := pod.GetLabels(); delete(labels, s.key)
        -- pod.SetLabels(labels); Update(ctx, pod, ...)
        match clientUpdate Op.markPassive remote (pod.delete s.key) o with
        | (false, remote2, t2) =>
          { sc := s, remote := remote2, trace := t1 ++ t2, status := Status.returned }
        | (true, remote2, t2) =>
          { sc := { s with active := false }, remote := remote2, trace := t1 ++ t2,
            status := Status.returned }
      else
        { sc := s, remote := remote, trace := t1, status := Status.returned }
    | (none, t1) =>
      { sc := s, remote := remote, trace := t1, status := Status.fatal }
  else
    { sc := s, remote := remote, trace := [], status := Status.returned }

/-- The `OnStartedLeading` callback of `runLeaderElection`. -/
def onStartedLeading (s : SideCar) (remote : Labels) (o : Oracle) : Run :=
  markActive s remote o

/-- The `OnStoppedLeading` callback of `runLeaderElection`. -/
def onStoppedLeading (s : SideCar) (remote : Labels) (o : Oracle) : Run :=
  markPassive s remote o

/-- Go `fmt.Sprintf("%s-%s", a, b)`. -/
def sprintfDash (a b : String) : String :=
  a ++ "-" ++ b

/-- Go `func (s *SideCar) generateLock()`. -/
def generateLock (s : SideCar) (remote : Labels) (o : Oracle) : Run :=
  match clientGet remote o with
  | (none, t1) =>
    { sc := s, remote := remote, trace := t1, status := Status.fatal }
  | (some pod, t1) =>
    let lease : LeaseLock :=
      { leaseName := sprintfDash (pod.val "app.kubernetes.io/name")
                       (pod.val "app.kubernetes.io/component"),
        leaseNamespace := s.podNamespace,
        identity := s.name }
    { sc := { s with lock := some lease },
      remote := remote, trace := t1, status := Status.returned }

/-- Go `func getEnvOrDefault(key, defaultValue string) string`; `env` is
`os.Getenv`, which gives `""` for an unset variable. -/
def getEnvOrDefault (env : String → String) (key defaultValue : String) : String :=
  if env key = "" then defaultValue else env key

/-- Go `func newSideCar(ctx, client) *SideCar`; `none` is `klog.Fatal` on a
missing variable. -/
def newSideCar (env : String → String) : Option SideCar :=
  if env "POD_NAMESPACE" = "" then none
  else if env "POD_NAME" = "" then none
  else some
    { lock := none,
      podNamespace := env "POD_NAMESPACE",
      name := env "POD_NAME",
      key := getEnvOrDefault env "LABEL_KEY" "apsc.knoppiks.de/state",
      active := false }

/-! ## Sequences of calls -/

/-- Dispatch on the operation. -/
def runOp : Op → SideCar → Labels → Oracle → Run
  | Op.markActive => markActive
  | Op.markPassive => markPassive

/-- One leadership event as the process sees it: what an external actor did to
the pod's labels since the previous call (`none`: nothing, `some m`: the labels
are now `m`), the operation called, and the outcome of its API calls. -/
structure Step where
  ext : Option Labels
  op : Op
  oracle : Oracle
deriving DecidableEq, Repr

/-- Run the calls one after another.  A call that does not return ends the
process, so the calls after it do not happen. -/
def runSeq : List Step → SideCar → Labels → Run
  | [], s, remote => { sc := s, remote := remote, trace := [], status := Status.returned }
  | st :: rest, s, remote =>
    let r := runOp st.op s (st.ext.getD remote) st.oracle
    match r.status with
    | Status.returned =>
      let r2 := runSeq rest r.sc r.remote
      { r2 with trace := r.trace ++ r2.trace }
    | _ => r

/-! ## Observations on traces -/

/-- The call is a pod update (a label write), whatever its outcome. -/
def Call.isUpdate : Call → Bool
  | Call.update _ _ _ => true
  | Call.get _ => false

/-- The call is a pod update that succeeded. -/
def Call.isOkUpdate : Call → Bool
  | Call.update _ _ true => true
  | _ => false

/-- The call is a pod update that returned an error. -/
def Call.isFailedUpdate : Call → Bool
  | Call.update _ _ false => true
  | _ => false

/-- The call is a pod read that succeeded. -/
def Call.isOkGet : Call → Bool
  | Call.get true => true
  | _ => false

/-- The call returned without error. -/
def Call.ok : Call → Bool
  | Call.get ok => ok
  | Call.update _ _ ok => ok

/-- Number of pod update calls in a trace. -/
def updateCalls (t : List Call) : Nat :=
  t.countP Call.isUpdate

/-- Number of successful pod update calls in a trace. -/
def okUpdateCalls (t : List Call) : Nat :=
  t.countP Call.isOkUpdate

/-- Number of pod read calls in a trace. -/
def getCalls (t : List Call) : Nat :=
  t.countP (fun c => !c.isUpdate)

/-- The most recent successful label write of a trace: who made it and the
label map it wrote. -/
def lastOkWrite : List Call → Option (Op × Labels)
  | [] => none
  | c :: rest =>
    match lastOkWrite rest with
    | some w => some w
    | none =>
      match c with
      | Call.update caller sent true => some (caller, sent)
      | _ => none

/-- The call is a successful pod update made by the given operation. -/
def Call.isOkWriteBy (op : Op) : Call → Bool
  | Call.update caller _ true => decide (caller = op)
  | _ => false

/-- The run made a pod read that succeeded. -/
def Run.readOk (r : Run) : Bool :=
  r.trace.any Call.isOkGet

/-- The run made a pod update that succeeded. -/
def Run.writeOk (r : Run) : Bool :=
  r.trace.any Call.isOkUpdate

/-- The run made a pod update that returned an error. -/
def Run.writeFailed (r : Run) : Bool :=
  r.trace.any Call.isFailedUpdate

/-! ## Facts about label maps -/

theorem LabelMap.delete_of_absent (l : LabelMap) (k : String) (h : l.lookup k = none) :
    LabelMap.delete l k = l := by
  induction l with
  | nil => rfl
  | cons p rest ih =>
    obtain ⟨a, b⟩ := p
    by_cases hk : k = a
    · subst hk
      simp [List.lookup] at h
    · have hne : (k == a) = false := by simpa using hk
      simp only [List.lookup, hne] at h
      have ih2 := ih h
      unfold LabelMap.delete at ih2 ⊢
      have : (a != k) = true := by simpa using (Ne.symm hk)
      simp [List.filter, this, ih2]

theorem LabelMap.lookup_delete_self (l : LabelMap) (k : String) :
    (LabelMap.delete l k).lookup k = none := by
  induction l with
  | nil => rfl
  | cons p rest ih =>
    obtain ⟨a, b⟩ := p
    unfold LabelMap.delete at ih ⊢
    by_cases hk : a = k
    · subst hk
      simpa [List.filter] using ih
    · have h1 : (a != k) = true := by simpa using hk
      have h2 : (k == a) = false := by simpa using (Ne.symm hk)
      simp [List.filter, h1, List.lookup, h2, ih]

theorem LabelMap.lookup_delete_ne (l : LabelMap) (k j : String) (hj : j ≠ k) :
    (LabelMap.delete l k).lookup j = l.lookup j := by
  induction l with
  | nil => rfl
  | cons p rest ih =>
    obtain ⟨a, b⟩ := p
    unfold LabelMap.delete at ih ⊢
    by_cases hk : a = k
    · subst hk
      have h2 : (j == a) = false := by simpa using hj
      simpa [List.filter, List.lookup, h2] using ih
    · have h1 : (a != k) = true := by simpa using hk
      by_cases hja : j = a
      · subst hja
        simp [List.filter, h1, List.lookup]
      · have h2 : (j == a) = false := by simpa using hja
        simp [List.filter, h1, List.lookup, h2, ih]

theorem LabelMap.lookup_set_self (l : LabelMap) (k v : String) :
    (LabelMap.set l k v).lookup k = some v := by
  simp [LabelMap.set, List.lookup]

theorem LabelMap.lookup_set_ne (l : LabelMap) (k v j : String) (hj : j ≠ k) :
    (LabelMap.set l k v).lookup j = l.lookup j := by
  have h2 : (j == k) = false := by simpa using hj
  simp [LabelMap.set, List.lookup, h2, LabelMap.lookup_delete_ne l k j hj]

theorem LabelMap.set_of_absent (l : LabelMap) (k v : String) (h : l.lookup k = none) :
    LabelMap.set l k v = (k, v) :: l := by
  simp [LabelMap.set, LabelMap.delete_of_absent l k h]


theorem Labels.get?_served (m : Labels) (k : String) : m.served.get? k = m.get? k := by
  cases m with
  | none => rfl
  | some l => cases l <;> rfl

theorem Labels.val_served (m : Labels) (k : String) : m.served.val k = m.val k := by
  simp [Labels.val, Labels.get?_served]

theorem Labels.served_eq_some (m : Labels) (l : LabelMap) (h : m.served = some l) :
    m = some l ∧ l ≠ [] := by
  cases m with
  | none => simp [Labels.served] at h
  | some l2 =>
    cases l2 with
    | nil => simp [Labels.served] at h
    | cons p rest =>
      simp only [Labels.served, Option.some.injEq] at h
      subst h
      exact ⟨rfl, by simp⟩

theorem Labels.served_some (l : LabelMap) (h : l ≠ []) : Labels.served (some l) = some l := by
  cases l with
  | nil => exact absurd rfl h
  | cons p rest => rfl

theorem Labels.served_set (l : LabelMap) (k v : String) :
    Labels.served (some (l.set k v)) = some (l.set k v) := rfl

/-! ## The branches of the two operations -/

theorem markActive_read_error (s : SideCar) (remote : Labels) (u : Bool) :
    markActive s remote ⟨false, u⟩
      = { sc := s, remote := remote, trace := [Call.get false], status := Status.fatal } := by
  simp [markActive, clientGet]

theorem markActive_present (s : SideCar) (remote : Labels) (u : Bool)
    (h : (remote.get? s.key).isSome = true) :
    markActive s remote ⟨true, u⟩
      = { sc := s, remote := remote, trace := [Call.get true], status := Status.returned } := by
  have h2 : (remote.served.get? s.key).isNone = false := by
    rw [Labels.get?_served]
    cases hv : remote.get? s.key <;> simp_all
  simp [markActive, clientGet, h2]

theorem markActive_unlabelled (s : SideCar) (remote : Labels) (u : Bool)
    (h : remote.served = none) :
    markActive s remote ⟨true, u⟩
      = { sc := s, remote := remote, trace := [Call.get true], status := Status.panicked } := by
  simp [markActive, clientGet, h, Labels.get?, Labels.set]

theorem markActive_nil (s : SideCar) (u : Bool) :
    markActive s none ⟨true, u⟩
      = { sc := s, remote := none, trace := [Call.get true], status := Status.panicked } :=
  markActive_unlabelled s none u rfl

theorem markActive_write_ok (s : SideCar) (l : LabelMap) (h : l.lookup s.key = none)
    (hne : l ≠ []) :
    markActive s (some l) ⟨true, true⟩
      = { sc := { s with active := true }, remote := some (l.set s.key "active"),
          trace := [Call.get true, Call.update Op.markActive (some (l.set s.key "active")) true],
          status := Status.returned } := by
  simp [markActive, clientGet, clientUpdate, Labels.served_some l hne, Labels.served_set,
    Labels.get?, Labels.set, h]

theorem markActive_write_error (s : SideCar) (l : LabelMap) (h : l.lookup s.key = none)
    (hne : l ≠ []) :
    markActive s (some l) ⟨true, false⟩
      = { sc := s, remote := some l,
          trace := [Call.get true, Call.update Op.markActive (some (l.set s.key "active")) false],
          status := Status.returned } := by
  simp [markActive, clientGet, clientUpdate, Labels.served_some l hne, Labels.get?,
    Labels.set, h]

theorem markPassive_inactive (s : SideCar) (remote : Labels) (o : Oracle)
    (h : s.active = false) :
    markPassive s remote o
      = { sc := s, remote := remote, trace := [], status := Status.returned } := by
  simp [markPassive, h]

theorem markPassive_read_error (s : SideCar) (remote : Labels) (u : Bool)
    (h : s.active = true) :
    markPassive s remote ⟨false, u⟩
      = { sc := s, remote := remote, trace := [Call.get false], status := Status.fatal } := by
  simp [markPassive, clientGet, h]

theorem markPassive_absent (s : SideCar) (remote : Labels) (u : Bool)
    (h : s.active = true) (hk : remote.get? s.key = none) :
    markPassive s remote ⟨true, u⟩
      = { sc := s, remote := remote, trace := [Call.get true], status := Status.returned } := by
  simp [markPassive, clientGet, h, hk, Labels.get?_served]

theorem markPassive_write_ok (s : SideCar) (l : LabelMap)
    (h : s.active = true) (hk : (l.lookup s.key).isSome = true) :
    markPassive s (some l) ⟨true, true⟩
      = { sc := { s with active := false }, remote := Labels.served (some (l.delete s.key)),
          trace := [Call.get true, Call.update Op.markPassive (some (l.delete s.key)) true],
          status := Status.returned } := by
  have hne : l ≠ [] := by
    intro hnil
    subst hnil
    simp at hk
  simp [markPassive, clientGet, clientUpdate, Labels.served_some l hne, Labels.get?,
    Labels.delete, h, hk]

theorem markPassive_write_error (s : SideCar) (l : LabelMap)
    (h : s.active = true) (hk : (l.lookup s.key).isSome = true) :
    markPassive s (some l) ⟨true, false⟩
      = { sc := s, remote := some l,
          trace := [Call.get true, Call.update Op.markPassive (some (l.delete s.key)) false],
          status := Status.returned } := by
  have hne : l ≠ [] := by
    intro hnil
    subst hnil
    simp at hk
  simp [markPassive, clientGet, clientUpdate, Labels.served_some l hne, Labels.get?,
    Labels.delete, h, hk]



/-! ## Single calls -/

/-- For a pod that carries at least one label, none of them the label key, a
`markActive` whose pod read and pod update succeed returns, leaves the pod's
label map equal to the old map with `key -> "active"` added, every other label
unchanged, and sets the in-memory active flag to true. -/
theorem markActive_adds_label_labelled (s : SideCar) (remote : Labels) (o : Oracle)
    (hlab : remote.served ≠ none)
    (habsent : remote.get? s.key = none)
    (hget : o.getOk = true)
    (hupd : o.updateOk = true) :
    onStartedLeading s remote o = markActive s remote o ∧
    (markActive s remote o).status = Status.returned ∧
    (markActive s remote o).sc = { s with active := true } ∧
    (markActive s remote o).sc.active = true ∧
    (∃ l, remote = some l ∧ (markActive s remote o).remote = some ((s.key, "active") :: l)) ∧
    (markActive s remote o).remote.get? s.key = some "active" ∧
    (∀ k, k ≠ s.key → (markActive s remote o).remote.get? k = remote.get? k) := by
  obtain ⟨g, u⟩ := o
  simp only at hget hupd
  subst hget hupd
  refine ⟨rfl, ?_⟩
  cases hs : remote.served with
  | none => exact absurd hs hlab
  | some l =>
    obtain ⟨hr, hne⟩ := Labels.served_eq_some remote l hs
    subst hr
    have hl : l.lookup s.key = none := by simpa [Labels.get?] using habsent
    rw [markActive_write_ok s l hl hne]
    refine ⟨rfl, rfl, rfl, ⟨l, rfl, ?_⟩, ?_, ?_⟩
    · simp [LabelMap.set_of_absent l s.key "active" hl]
    · simp [Labels.get?, LabelMap.lookup_set_self]
    · intro k hk
      simp [Labels.get?, LabelMap.lookup_set_ne l s.key "active" k hk]

/-- C1 fails on the code for a pod without labels: the nil label map does not
contain the label key, the pod read succeeds and the pod update would succeed,
yet `markActive` panics on `labels[key] = "active"` before it calls the
update; the pod gains no label and the struct, so the active flag, is left as
it was (false for a freshly built sidecar). -/
theorem markActive_unlabelled_pod_not_marked (s : SideCar) :
    Labels.get? none s.key = none ∧
    (markActive s none ⟨true, true⟩).status = Status.panicked ∧
    (markActive s none ⟨true, true⟩).remote = none ∧
    (markActive s none ⟨true, true⟩).remote.get? s.key ≠ some "active" ∧
    (markActive s none ⟨true, true⟩).sc = s ∧
    (markActive s none ⟨true, true⟩).writeOk = false ∧
    (markActive ⟨none, "ns1", "app-0", "k", false⟩ none ⟨true, true⟩).sc.active = false := by
  rw [markActive_nil]
  refine ⟨rfl, rfl, rfl, ?_, rfl, ?_, by decide⟩
  · simp [Labels.get?]
  · simp [Run.writeOk, Call.isOkUpdate]

/-- C5, as stated, fails: with the flag true, the read succeeding and the label
key absent, `markPassive` makes no write but does not set the flag to false. -/
theorem markPassive_absent_counterexample :
    ¬ ((SideCar.mk none "ns1" "app-0" "k" true).active = true →
       Labels.get? (some [("app", "svc")]) (SideCar.mk none "ns1" "app-0" "k" true).key = none →
       (markPassive ⟨none, "ns1", "app-0", "k", true⟩ (some [("app", "svc")]) ⟨true, true⟩).readOk
         = true →
       updateCalls
           (markPassive ⟨none, "ns1", "app-0", "k", true⟩ (some [("app", "svc")]) ⟨true, true⟩).trace
         = 0 ∧
       (markPassive ⟨none, "ns1", "app-0", "k", true⟩ (some [("app", "svc")]) ⟨true, true⟩).sc.active
         = false) := by
  decide

/-- C5, amended: with the flag true, the read succeeding and the label key
absent from the pod's label map, `markPassive` (which is the `OnStoppedLeading`
callback) returns without any pod update, leaves the pod's label map as it was
and leaves the in-memory struct unchanged, so the active flag stays true. -/
theorem markPassive_absent_no_write (s : SideCar) (remote : Labels) (o : Oracle)
    (hact : s.active = true)
    (hread : (markPassive s remote o).readOk = true)
    (habsent : remote.get? s.key = none) :
    onStoppedLeading s remote o = markPassive s remote o ∧
    (markPassive s remote o).status = Status.returned ∧
    updateCalls (markPassive s remote o).trace = 0 ∧
    (markPassive s remote o).remote = remote ∧
    (markPassive s remote o).sc = s ∧
    (markPassive s remote o).sc.active = true := by
  obtain ⟨g, u⟩ := o
  refine ⟨rfl, ?_⟩
  cases g with
  | false =>
    rw [markPassive_read_error s remote u hact] at hread
    simp [Run.readOk, Call.isOkGet] at hread
  | true =>
    rw [markPassive_absent s remote u hact habsent]
    exact ⟨rfl, by simp [updateCalls, Call.isUpdate], rfl, rfl, hact⟩

/-- Witness for the amended C5: the label was removed by someone else. -/
theorem markPassive_absent_no_write_witness :
    Labels.get? (some [("app", "svc")]) "k" = none ∧
    updateCalls
        (markPassive ⟨none, "ns1", "app-0", "k", true⟩ (some [("app", "svc")]) ⟨true, true⟩).trace
      = 0 ∧
    (markPassive ⟨none, "ns1", "app-0", "k", true⟩ (some [("app", "svc")]) ⟨true, true⟩).sc.active
      = true :=
  ⟨by decide,
   (markPassive_absent_no_write ⟨none, "ns1", "app-0", "k", true⟩ (some [("app", "svc")])
      ⟨true, true⟩ (by decide) (by decide) (by decide)).2.2.1,
   (markPassive_absent_no_write ⟨none, "ns1", "app-0", "k", true⟩ (some [("app", "svc")])
      ⟨true, true⟩ (by decide) (by decide) (by decide)).2.2.2.2.2⟩

/-- C6: for `markActive` and for `markPassive`, from every starting state, if
the pod read of the call succeeds and its pod update fails, the operation
returns normally, the in-memory struct (so the active flag) is what it was
before the call, and the pod's label map in the cluster is unchanged.  For
`markPassive` the flag before and after is true; for `markActive` called with
the flag false it is false afterwards. -/
theorem update_error_keeps_state (op : Op) (s : SideCar) (remote : Labels) (o : Oracle)
    (hread : (runOp op s remote o).readOk = true)
    (hfail : (runOp op s remote o).writeFailed = true) :
    (runOp op s remote o).status = Status.returned ∧
    (runOp op s remote o).sc = s ∧
    (runOp op s remote o).sc.active = s.active ∧
    (runOp op s remote o).remote = remote ∧
    (op = Op.markPassive → (runOp op s remote o).sc.active = true) ∧
    (op = Op.markActive → s.active = false → (runOp op s remote o).sc.active = false) := by
  obtain ⟨g, u⟩ := o
  cases op with
  | markActive =>
    simp only [runOp] at hread hfail ⊢
    cases g with
    | false =>
      rw [markActive_read_error] at hread
      simp [Run.readOk, Call.isOkGet] at hread
    | true =>
      cases hk : (remote.get? s.key).isSome with
      | true =>
        rw [markActive_present s remote u hk] at hfail
        simp [Run.writeFailed, Call.isFailedUpdate] at hfail
      | false =>
        cases hs : remote.served with
        | none =>
          rw [markActive_unlabelled s remote u hs] at hfail
          simp [Run.writeFailed, Call.isFailedUpdate] at hfail
        | some l =>
          obtain ⟨hr, hne⟩ := Labels.served_eq_some remote l hs
          subst hr
          have hl : l.lookup s.key = none := by simpa [Labels.get?] using hk
          cases u with
          | true =>
            rw [markActive_write_ok s l hl hne] at hfail
            simp [Run.writeFailed, Call.isFailedUpdate] at hfail
          | false =>
            rw [markActive_write_error s l hl hne]
            exact ⟨rfl, rfl, rfl, rfl, nofun, fun _ h => h⟩
  | markPassive =>
    simp only [runOp] at hread hfail ⊢
    cases ha : s.active with
    | false =>
      rw [markPassive_inactive s remote _ ha] at hfail
      simp [Run.writeFailed] at hfail
    | true =>
      cases g with
      | false =>
        rw [markPassive_read_error s remote u ha] at hread
        simp [Run.readOk, Call.isOkGet] at hread
      | true =>
        cases hk : remote.get? s.key with
        | none =>
          rw [markPassive_absent s remote u ha hk] at hfail
          simp [Run.writeFailed, Call.isFailedUpdate] at hfail
        | some v =>
          cases remote with
          | none => simp [Labels.get?] at hk
          | some l =>
            have hl : (l.lookup s.key).isSome = true := by
              simp [Labels.get?] at hk
              simp [hk]
            cases u with
            | true =>
              rw [markPassive_write_ok s l ha hl] at hfail
              simp [Run.writeFailed, Call.isFailedUpdate] at hfail
            | false =>
              rw [markPassive_write_error s l ha hl]
              exact ⟨rfl, rfl, ha, rfl, fun _ => ha, nofun⟩

/-- Witness for C6: a conflict on the update of `markActive` and one on the
update of `markPassive`. -/
theorem update_error_keeps_state_witness :
    ((runOp Op.markActive ⟨none, "ns1", "app-0", "k", false⟩ (some [("app", "svc")])
        ⟨true, false⟩).sc.active = false ∧
     (runOp Op.markActive ⟨none, "ns1", "app-0", "k", false⟩ (some [("app", "svc")])
        ⟨true, false⟩).remote = some [("app", "svc")]) ∧
    ((runOp Op.markPassive ⟨none, "ns1", "app-0", "k", true⟩ (some [("k", "active")])
        ⟨true, false⟩).sc.active = true ∧
     (runOp Op.markPassive ⟨none, "ns1", "app-0", "k", true⟩ (some [("k", "active")])
        ⟨true, false⟩).remote = some [("k", "active")]) :=
  ⟨⟨(update_error_keeps_state Op.markActive ⟨none, "ns1", "app-0", "k", false⟩
        (some [("app", "svc")]) ⟨true, false⟩ (by decide) (by decide)).2.2.1,
    (update_error_keeps_state Op.markActive ⟨none, "ns1", "app-0", "k", false⟩
        (some [("app", "svc")]) ⟨true, false⟩ (by decide) (by decide)).2.2.2.1⟩,
   ⟨(update_error_keeps_state Op.markPassive ⟨none, "ns1", "app-0", "k", true⟩
        (some [("k", "active")]) ⟨true, false⟩ (by decide) (by decide)).2.2.1,
    (update_error_keeps_state Op.markPassive ⟨none, "ns1", "app-0", "k", true⟩
        (some [("k", "active")]) ⟨true, false⟩ (by decide) (by decide)).2.2.2.1⟩⟩

/-- C10 fails on the code: for a pod without labels (`GetLabels` returns the
nil map) whose read succeeds, `markActive` executes `labels[key] = "active"`
on the nil map and panics, before any pod update, whatever the struct and the
outcome the update would have had. -/
theorem markActive_nil_labels_panics (s : SideCar) (u : Bool) :
    (markActive s none ⟨true, u⟩).status = Status.panicked ∧
    (markActive s none ⟨true, u⟩).readOk = true ∧
    updateCalls (markActive s none ⟨true, u⟩).trace = 0 := by
  rw [markActive_nil]
  exact ⟨rfl, by simp [Run.readOk, Call.isOkGet], by simp [updateCalls, Call.isUpdate]⟩


/-- C7: when the pod read succeeds, `generateLock` returns with a lock
descriptor whose name is the value of label `app.kubernetes.io/name`, then
`-`, then the value of label `app.kubernetes.io/component`, whose namespace is
the sidecar's namespace and whose holder identity is the pod name; a label
that is absent contributes the empty string; nothing else in the struct and
nothing in the cluster changes.  For `ns1` / `app-0` /
`{name: svc, component: worker}` the descriptor is `svc-worker`, `ns1`,
`app-0`. -/
theorem generateLock_descriptor (s : SideCar) (remote : Labels) (o : Oracle)
    (hread : o.getOk = true) :
    (generateLock s remote o).status = Status.returned ∧
    (generateLock s remote o).sc.lock
      = some { leaseName := remote.val "app.kubernetes.io/name" ++ "-"
                              ++ remote.val "app.kubernetes.io/component",
               leaseNamespace := s.podNamespace,
               identity := s.name } ∧
    (∀ k, remote.get? k = none → remote.val k = "") ∧
    (∀ k v, remote.get? k = some v → remote.val k = v) ∧
    (generateLock s remote o).sc = { s with lock := (generateLock s remote o).sc.lock } ∧
    (generateLock s remote o).remote = remote ∧
    (generateLock ⟨none, "ns1", "app-0", "k", false⟩
        (some [("app.kubernetes.io/name", "svc"), ("app.kubernetes.io/component", "worker")])
        o).sc.lock
      = some { leaseName := "svc-worker", leaseNamespace := "ns1", identity := "app-0" } := by
  obtain ⟨g, u⟩ := o
  simp only at hread
  subst hread
  refine ⟨rfl, ?_, ?_, ?_, rfl, rfl, ?_⟩
  · simp [generateLock, clientGet, sprintfDash, Labels.val_served]
  · intro k hk
    simp [Labels.val, hk]
  · intro k v hk
    simp [Labels.val, hk]
  · cases u <;> decide

/-- Witness for C7: the scenario `ns1` / `app-0` / `svc` / `worker`. -/
theorem generateLock_descriptor_witness :
    (generateLock ⟨none, "ns1", "app-0", "k", false⟩
        (some [("app.kubernetes.io/name", "svc"), ("app.kubernetes.io/component", "worker")])
        ⟨true, true⟩).sc.lock
      = some { leaseName := "svc-worker", leaseNamespace := "ns1", identity := "app-0" } :=
  (generateLock_descriptor ⟨none, "ns1", "app-0", "k", false⟩
    (some [("app.kubernetes.io/name", "svc"), ("app.kubernetes.io/component", "worker")])
    ⟨true, true⟩ rfl).2.2.2.2.2.2


/-! ## Two calls in a row -/

/-- C2: from a pod label map without the label key and the flag false, a
`markActive` and then a `markPassive`, with nothing else touching the labels in
between, both returning and every pod read and update they make succeeding,
end with the key absent from the pod's label map, the flag false, and the label
map equal to the one before `markActive`; in between, after `markActive`, the
map carries `key -> "active"` and the flag is true. -/
theorem markActive_then_markPassive_restores (s : SideCar) (remote : Labels) (oA oP : Oracle)
    (habsent : remote.get? s.key = none)
    (hflag : s.active = false)
    (hret : (runSeq [⟨none, Op.markActive, oA⟩, ⟨none, Op.markPassive, oP⟩] s remote).status
              = Status.returned)
    (hok : (runSeq [⟨none, Op.markActive, oA⟩, ⟨none, Op.markPassive, oP⟩] s remote).trace.all
              Call.ok = true) :
    (markActive s remote oA).remote.get? s.key = some "active" ∧
    (markActive s remote oA).sc.active = true ∧
    (runSeq [⟨none, Op.markActive, oA⟩, ⟨none, Op.markPassive, oP⟩] s remote).remote.get? s.key
      = none ∧
    (runSeq [⟨none, Op.markActive, oA⟩, ⟨none, Op.markPassive, oP⟩] s remote).sc.active = false ∧
    (runSeq [⟨none, Op.markActive, oA⟩, ⟨none, Op.markPassive, oP⟩] s remote).remote = remote ∧
    (runSeq [⟨none, Op.markActive, oA⟩, ⟨none, Op.markPassive, oP⟩] s remote).sc = s ∧
    okUpdateCalls
        (runSeq [⟨none, Op.markActive, oA⟩, ⟨none, Op.markPassive, oP⟩] s remote).trace = 2 := by
  obtain ⟨gA, uA⟩ := oA
  obtain ⟨gP, uP⟩ := oP
  cases gA with
  | false =>
    simp [runSeq, runOp, markActive_read_error] at hret
  | true =>
    cases hs : remote.served with
    | none => simp [runSeq, runOp, markActive_unlabelled s remote uA hs] at hret
    | some l =>
      obtain ⟨hr, hne⟩ := Labels.served_eq_some remote l hs
      subst hr
      have hl : l.lookup s.key = none := by simpa [Labels.get?] using habsent
      cases uA with
      | false =>
        simp [runSeq, runOp, markActive_write_error s l hl hne, Call.ok] at hok
      | true =>
        have hact : ({ s with active := true } : SideCar).active = true := rfl
        have hkey : ((l.set s.key "active").lookup ({ s with active := true } : SideCar).key).isSome
            = true := by
          simp [LabelMap.lookup_set_self]
        cases gP with
        | false =>
          simp [runSeq, runOp, markActive_write_ok s l hl hne,
            markPassive_read_error _ _ uP hact] at hret
        | true =>
          cases uP with
          | false =>
            simp [runSeq, runOp, markActive_write_ok s l hl hne,
              markPassive_write_error _ _ hact hkey, Call.ok] at hok
          | true =>
            have hdel : LabelMap.delete (l.set s.key "active") s.key = l := by
              rw [LabelMap.set_of_absent l s.key "active" hl]
              have := LabelMap.delete_of_absent l s.key hl
              simpa [LabelMap.delete] using this
            have hs2 : ({ ({ s with active := true } : SideCar) with active := false } : SideCar)
                = s := by
              cases s
              simp_all
            simp only [runSeq, runOp, markActive_write_ok s l hl hne,
              markPassive_write_ok _ _ hact hkey, Option.getD_none, hdel, hs2,
              Labels.served_some l hne]
            refine ⟨by simp [Labels.get?, LabelMap.lookup_set_self], trivial, ?_, hflag, trivial,
              trivial, ?_⟩
            · simpa [Labels.get?] using hl
            · simp [okUpdateCalls, Call.isOkUpdate]

/-- Witness for C2: a pod labelled `app=svc`, label key `k`, all four calls
succeeding. -/
theorem markActive_then_markPassive_restores_witness :
    Labels.get? (some [("app", "svc")]) "k" = none ∧
    (runSeq [⟨none, Op.markActive, ⟨true, true⟩⟩, ⟨none, Op.markPassive, ⟨true, true⟩⟩]
        ⟨none, "ns1", "app-0", "k", false⟩ (some [("app", "svc")])).remote
      = some [("app", "svc")] :=
  ⟨by decide,
   (markActive_then_markPassive_restores ⟨none, "ns1", "app-0", "k", false⟩
      (some [("app", "svc")]) ⟨true, true⟩ ⟨true, true⟩
      (by decide) (by decide) (by decide) (by decide)).2.2.2.2.1⟩


/-- C3, as stated, fails: when the update of the first `markActive` returns an
error, the second `markActive` finds the key still absent and calls the pod
update again, so two pod update calls are made. -/
theorem markActive_twice_counterexample :
    ¬ (updateCalls
        (runSeq [⟨none, Op.markActive, ⟨true, false⟩⟩, ⟨none, Op.markActive, ⟨true, true⟩⟩]
          ⟨none, "ns1", "app-0", "k", false⟩ (some [("app", "svc")])).trace ≤ 1) := by
  decide

/-- C3, amended: for every initial struct, every initial pod label map and every
outcome of the reads and updates, `markActive` followed immediately by
`markActive` performs at most one successful label write in total, and makes
more than one pod update call only when the update of the first call failed
(the second call then retries); never more than two. -/
theorem markActive_twice_writes (s : SideCar) (remote : Labels) (o1 o2 : Oracle) :
    okUpdateCalls
        (runSeq [⟨none, Op.markActive, o1⟩, ⟨none, Op.markActive, o2⟩] s remote).trace ≤ 1 ∧
    (updateCalls
        (runSeq [⟨none, Op.markActive, o1⟩, ⟨none, Op.markActive, o2⟩] s remote).trace ≤ 1 ∨
      (markActive s remote o1).writeFailed = true) ∧
    updateCalls
        (runSeq [⟨none, Op.markActive, o1⟩, ⟨none, Op.markActive, o2⟩] s remote).trace ≤ 2 := by
  obtain ⟨g1, u1⟩ := o1
  obtain ⟨g2, u2⟩ := o2
  cases g1 with
  | false =>
    simp [runSeq, runOp, markActive_read_error, okUpdateCalls, updateCalls, Call.isUpdate,
      Call.isOkUpdate]
  | true =>
    cases hk : (remote.get? s.key).isSome with
    | true =>
      cases g2 with
      | false =>
        simp [runSeq, runOp, markActive_present s remote _ hk, markActive_read_error,
          okUpdateCalls, updateCalls, Call.isUpdate, Call.isOkUpdate]
      | true =>
        simp [runSeq, runOp, markActive_present s remote _ hk,
          okUpdateCalls, updateCalls, Call.isUpdate, Call.isOkUpdate]
    | false =>
      cases hs : remote.served with
      | none =>
        simp [runSeq, runOp, markActive_unlabelled s remote _ hs, okUpdateCalls, updateCalls,
          Call.isUpdate, Call.isOkUpdate]
      | some l =>
        obtain ⟨hr, hne⟩ := Labels.served_eq_some remote l hs
        subst hr
        have hl : l.lookup s.key = none := by simpa [Labels.get?] using hk
        cases u1 with
        | false =>
          cases g2 with
          | false =>
            simp [runSeq, runOp, markActive_write_error s l hl hne, markActive_read_error,
              okUpdateCalls, updateCalls, Call.isUpdate, Call.isOkUpdate, Run.writeFailed,
              Call.isFailedUpdate]
          | true =>
            cases u2 with
            | false =>
              simp [runSeq, runOp, markActive_write_error s l hl hne,
                okUpdateCalls, updateCalls, Call.isUpdate, Call.isOkUpdate, Run.writeFailed,
                Call.isFailedUpdate]
            | true =>
              simp [runSeq, runOp, markActive_write_error s l hl hne, markActive_write_ok s l hl hne,
                okUpdateCalls, updateCalls, Call.isUpdate, Call.isOkUpdate, Run.writeFailed,
                Call.isFailedUpdate]
        | true =>
          have hkey : (Labels.get? (some (l.set s.key "active"))
              ({ s with active := true } : SideCar).key).isSome = true := by
            simp [Labels.get?, LabelMap.lookup_set_self]
          cases g2 with
          | false =>
            simp [runSeq, runOp, markActive_write_ok s l hl hne, markActive_read_error,
              okUpdateCalls, updateCalls, Call.isUpdate, Call.isOkUpdate]
          | true =>
            simp [runSeq, runOp, markActive_write_ok s l hl hne, markActive_present _ _ _ hkey,
              okUpdateCalls, updateCalls, Call.isUpdate, Call.isOkUpdate]



/-! ## Construction -/

/-- A struct built by `newSideCar` starts passive, without a lock, and with a
non-empty namespace and pod name taken from the environment. -/
theorem newSideCar_initial (env : String → String) (s : SideCar)
    (h : newSideCar env = some s) :
    s.active = false ∧ s.lock = none ∧
    s.podNamespace = env "POD_NAMESPACE" ∧ s.podNamespace ≠ "" ∧
    s.name = env "POD_NAME" ∧ s.name ≠ "" := by
  unfold newSideCar at h
  by_cases h1 : env "POD_NAMESPACE" = ""
  · simp [h1] at h
  · by_cases h2 : env "POD_NAME" = ""
    · simp [h1, h2] at h
    · simp only [h1, h2, if_false, Option.some.injEq] at h
      subst h
      exact ⟨rfl, rfl, rfl, h1, rfl, h2⟩

/-! ## Sequences of calls: the flag invariant -/

theorem lastOkWrite_append_quiet (t1 t2 : List Call)
    (h : ∀ c ∈ t2, Call.isOkUpdate c = false) :
    lastOkWrite (t1 ++ t2) = lastOkWrite t1 := by
  have hq : lastOkWrite t2 = none := by
    induction t2 with
    | nil => rfl
    | cons c rest ih =>
      have hrest := ih (fun d hd => h d (List.mem_cons_of_mem c hd))
      have hc := h c (List.mem_cons_self c rest)
      cases c with
      | get b => simp [lastOkWrite, hrest]
      | update caller sent ok =>
        cases ok with
        | true => simp [Call.isOkUpdate] at hc
        | false => simp [lastOkWrite, hrest]
  induction t1 with
  | nil => simpa [lastOkWrite] using hq
  | cons c rest ih => simp [lastOkWrite, ih]

theorem lastOkWrite_append_write (t1 : List Call) (b : Bool) (caller : Op) (sent : Labels) :
    lastOkWrite (t1 ++ [Call.get b, Call.update caller sent true]) = some (caller, sent) := by
  induction t1 with
  | nil => simp [lastOkWrite]
  | cons c rest ih => simp [lastOkWrite, ih]

theorem lastOkWrite_mem (t : List Call) (caller : Op) (sent : Labels)
    (h : lastOkWrite t = some (caller, sent)) : Call.update caller sent true ∈ t := by
  induction t with
  | nil => simp [lastOkWrite] at h
  | cons c rest ih =>
    cases hr : lastOkWrite rest with
    | some w =>
      simp only [lastOkWrite, hr] at h
      exact List.mem_cons_of_mem c (ih (by rw [hr, h]))
    | none =>
      cases c with
      | get b => simp [lastOkWrite, hr] at h
      | update c2 sent2 ok =>
        cases ok with
        | false => simp [lastOkWrite, hr] at h
        | true =>
          simp [lastOkWrite, hr] at h
          obtain ⟨h1, h2⟩ := h
          subst h1 h2
          exact List.mem_cons_self _ _

/-- Every call of `markActive` or `markPassive` either writes nothing
successfully and leaves the struct and the pod's labels alone, or is a
successful `markActive` write of `key -> "active"` that sets the flag, or is a
successful `markPassive` write that clears it. -/
theorem runOp_cases (op : Op) (s : SideCar) (remote : Labels) (o : Oracle) :
    ((runOp op s remote o).sc = s ∧ (runOp op s remote o).remote = remote ∧
      (∀ c ∈ (runOp op s remote o).trace, Call.isOkUpdate c = false)) ∨
    (∃ sent, (runOp op s remote o).sc = { s with active := true } ∧
      (runOp op s remote o).remote = sent.served ∧
      (runOp op s remote o).trace = [Call.get true, Call.update Op.markActive sent true] ∧
      Labels.get? sent s.key = some "active" ∧ op = Op.markActive) ∨
    (∃ sent, (runOp op s remote o).sc = { s with active := false } ∧
      (runOp op s remote o).remote = sent.served ∧
      (runOp op s remote o).trace = [Call.get true, Call.update Op.markPassive sent true] ∧
      op = Op.markPassive) := by
  obtain ⟨g, u⟩ := o
  cases op with
  | markActive =>
    simp only [runOp]
    cases g with
    | false => left; simp [markActive_read_error, Call.isOkUpdate]
    | true =>
      cases hk : (remote.get? s.key).isSome with
      | true => left; simp [markActive_present s remote u hk, Call.isOkUpdate]
      | false =>
        cases hs : remote.served with
        | none => left; simp [markActive_unlabelled s remote u hs, Call.isOkUpdate]
        | some l =>
          obtain ⟨hr, hne⟩ := Labels.served_eq_some remote l hs
          subst hr
          have hl : l.lookup s.key = none := by simpa [Labels.get?] using hk
          cases u with
          | false => left; simp [markActive_write_error s l hl hne, Call.isOkUpdate]
          | true =>
            right; left
            refine ⟨some (l.set s.key "active"), ?_⟩
            simp [markActive_write_ok s l hl hne, Labels.get?, LabelMap.lookup_set_self,
              Labels.served_set]
  | markPassive =>
    simp only [runOp]
    cases ha : s.active with
    | false => left; simp [markPassive_inactive s remote _ ha]
    | true =>
      cases g with
      | false => left; simp [markPassive_read_error s remote u ha, Call.isOkUpdate]
      | true =>
        cases hk : remote.get? s.key with
        | none => left; simp [markPassive_absent s remote u ha hk, Call.isOkUpdate]
        | some v =>
          cases remote with
          | none => simp [Labels.get?] at hk
          | some l =>
            have hl : (l.lookup s.key).isSome = true := by
              simp [Labels.get?] at hk
              simp [hk]
            cases u with
            | false => left; simp [markPassive_write_error s l ha hl, Call.isOkUpdate]
            | true =>
              right; right
              refine ⟨some (l.delete s.key), ?_⟩
              simp [markPassive_write_ok s l ha hl]

/-- One call keeps the flag invariant: if the flag is true then the most recent
successful write in the trace so far is a `markActive` write of
`key -> "active"`. -/
theorem runOp_flag_invariant (key : String) (op : Op) (s : SideCar) (remote : Labels)
    (o : Oracle) (pre : List Call) (hkey : s.key = key)
    (hinv : s.active = true →
      ∃ sent, lastOkWrite pre = some (Op.markActive, sent) ∧ Labels.get? sent key = some "active") :
    (runOp op s remote o).sc.key = key ∧
    ((runOp op s remote o).sc.active = true →
      ∃ sent, lastOkWrite (pre ++ (runOp op s remote o).trace) = some (Op.markActive, sent) ∧
        Labels.get? sent key = some "active") := by
  rcases runOp_cases op s remote o with ⟨h1, _, h3⟩ | ⟨sent, h1, _, h3, h4, _⟩ | ⟨sent, h1, _, _, _⟩
  · rw [h1, lastOkWrite_append_quiet pre _ h3]
    exact ⟨hkey, hinv⟩
  · rw [h1, h3, lastOkWrite_append_write]
    exact ⟨hkey, fun _ => ⟨sent, rfl, hkey ▸ h4⟩⟩
  · rw [h1]
    exact ⟨hkey, fun h => by simp at h⟩

/-- The flag invariant holds along every sequence of calls. -/
theorem runSeq_flag_invariant (key : String) (steps : List Step) :
    ∀ (s : SideCar) (remote : Labels) (pre : List Call), s.key = key →
      (s.active = true →
        ∃ sent, lastOkWrite pre = some (Op.markActive, sent) ∧
          Labels.get? sent key = some "active") →
      (runSeq steps s remote).sc.key = key ∧
      ((runSeq steps s remote).sc.active = true →
        ∃ sent, lastOkWrite (pre ++ (runSeq steps s remote).trace) = some (Op.markActive, sent) ∧
          Labels.get? sent key = some "active") := by
  induction steps with
  | nil =>
    intro s remote pre hkey hinv
    simpa [runSeq] using ⟨hkey, hinv⟩
  | cons st rest ih =>
    intro s remote pre hkey hinv
    have hstep := runOp_flag_invariant key st.op s (st.ext.getD remote) st.oracle pre hkey hinv
    cases hst : (runOp st.op s (st.ext.getD remote) st.oracle).status with
    | returned =>
      have hrec := ih (runOp st.op s (st.ext.getD remote) st.oracle).sc
        (runOp st.op s (st.ext.getD remote) st.oracle).remote
        (pre ++ (runOp st.op s (st.ext.getD remote) st.oracle).trace) hstep.1 hstep.2
      simp only [runSeq, hst]
      simpa [List.append_assoc] using hrec
    | fatal =>
      simp only [runSeq, hst]
      exact hstep
    | panicked =>
      simp only [runSeq, hst]
      exact hstep


/-- C8: in every state reached from a struct with the active flag false by a
finite sequence of `markActive` and `markPassive` calls, whatever the outcomes
of the reads and updates and whatever an external actor does to the pod's
labels between calls, if the active flag is true then the most recent
successful label write made by the process is a `markActive` write, and the
label map it wrote has `labels[key] = "active"`. -/
theorem active_flag_invariant (steps : List Step) (s0 : SideCar) (remote0 : Labels)
    (hinit : s0.active = false)
    (hact : (runSeq steps s0 remote0).sc.active = true) :
    ∃ sent, lastOkWrite (runSeq steps s0 remote0).trace = some (Op.markActive, sent) ∧
      Labels.get? sent (runSeq steps s0 remote0).sc.key = some "active" ∧
      Call.update Op.markActive sent true ∈ (runSeq steps s0 remote0).trace := by
  have h := runSeq_flag_invariant s0.key steps s0 remote0 [] rfl
    (fun h => by rw [hinit] at h; cases h)
  obtain ⟨sent, h1, h2⟩ := h.2 hact
  rw [List.nil_append] at h1
  exact ⟨sent, h1, by rw [h.1]; exact h2, lastOkWrite_mem _ _ _ h1⟩

/-- Witness for C8: a failed `markActive`, an external relabelling, a
successful `markActive`, then a `markPassive` whose update fails; the flag is
true at the end. -/
theorem active_flag_invariant_witness :
    ∃ sent,
      lastOkWrite
          (runSeq [⟨none, Op.markActive, ⟨true, false⟩⟩,
                   ⟨some (some [("tier", "db")]), Op.markActive, ⟨true, true⟩⟩,
                   ⟨none, Op.markPassive, ⟨true, false⟩⟩]
            ⟨none, "ns1", "app-0", "k", false⟩ (some [("app", "svc")])).trace
        = some (Op.markActive, sent) ∧
      Labels.get? sent "k" = some "active" :=
  have h := active_flag_invariant
    [⟨none, Op.markActive, ⟨true, false⟩⟩,
     ⟨some (some [("tier", "db")]), Op.markActive, ⟨true, true⟩⟩,
     ⟨none, Op.markPassive, ⟨true, false⟩⟩]
    ⟨none, "ns1", "app-0", "k", false⟩ (some [("app", "svc")]) (by decide) (by decide)
  h.elim fun sent hs => ⟨sent, hs.1, hs.2.1⟩

/-- C4: after any sequence of `markActive` and `markPassive` calls from a struct
with the flag false in which no `markActive` completed a successful label
write, the flag is still false, and a `markPassive` call then makes no pod
update and no pod read, returns, and leaves the pod's label map (whatever it
is at that moment) and the struct unchanged. -/
theorem markPassive_before_first_write (steps : List Step) (s0 : SideCar) (remote0 : Labels)
    (remote : Labels) (o : Oracle)
    (hinit : s0.active = false)
    (hnone : (runSeq steps s0 remote0).trace.any (Call.isOkWriteBy Op.markActive) = false) :
    (runSeq steps s0 remote0).sc.active = false ∧
    markPassive (runSeq steps s0 remote0).sc remote o
      = { sc := (runSeq steps s0 remote0).sc, remote := remote, trace := [],
          status := Status.returned } ∧
    updateCalls (markPassive (runSeq steps s0 remote0).sc remote o).trace = 0 ∧
    getCalls (markPassive (runSeq steps s0 remote0).sc remote o).trace = 0 ∧
    (markPassive (runSeq steps s0 remote0).sc remote o).remote = remote ∧
    (markPassive (runSeq steps s0 remote0).sc remote o).sc.active = false := by
  have hflag : (runSeq steps s0 remote0).sc.active = false := by
    cases hact : (runSeq steps s0 remote0).sc.active with
    | false => rfl
    | true =>
      have h := runSeq_flag_invariant s0.key steps s0 remote0 [] rfl
        (fun h => by rw [hinit] at h; cases h)
      obtain ⟨sent, h1, _⟩ := h.2 hact
      rw [List.nil_append] at h1
      have hmem := lastOkWrite_mem _ _ _ h1
      have hany : (runSeq steps s0 remote0).trace.any (Call.isOkWriteBy Op.markActive) = true :=
        List.any_eq_true.mpr ⟨_, hmem, by simp [Call.isOkWriteBy]⟩
      rw [hnone] at hany
      cases hany
  have hrun := markPassive_inactive (runSeq steps s0 remote0).sc remote o hflag
  rw [hrun]
  exact ⟨hflag, rfl, rfl, rfl, rfl, hflag⟩

/-- Witness for C4: the only `markActive` so far failed on its update. -/
theorem markPassive_before_first_write_witness :
    updateCalls
        (markPassive
          (runSeq [⟨none, Op.markActive, ⟨true, false⟩⟩, ⟨none, Op.markPassive, ⟨true, true⟩⟩]
            ⟨none, "ns1", "app-0", "k", false⟩ (some [("app", "svc")])).sc
          (some [("app", "svc")]) ⟨true, true⟩).trace = 0 ∧
    getCalls
        (markPassive
          (runSeq [⟨none, Op.markActive, ⟨true, false⟩⟩, ⟨none, Op.markPassive, ⟨true, true⟩⟩]
            ⟨none, "ns1", "app-0", "k", false⟩ (some [("app", "svc")])).sc
          (some [("app", "svc")]) ⟨true, true⟩).trace = 0 :=
  have h := markPassive_before_first_write
    [⟨none, Op.markActive, ⟨true, false⟩⟩, ⟨none, Op.markPassive, ⟨true, true⟩⟩]
    ⟨none, "ns1", "app-0", "k", false⟩ (some [("app", "svc")]) (some [("app", "svc")])
    ⟨true, true⟩ (by decide) (by decide)
  ⟨h.2.2.1, h.2.2.2.1⟩

/-- C9: from a struct with the flag false whose pod already carries the label
key, with any value, and with no external actor changing the labels, every
finite sequence of `markActive` and `markPassive` calls whose reads succeed
returns from every call, makes no pod update at all, keeps the flag false (the
struct is unchanged) and leaves the pod's label map, so the label, as it
was. -/
theorem labelled_pod_never_updated (steps : List Step) (s0 : SideCar) (remote0 : Labels)
    (hinit : s0.active = false)
    (hlab : (remote0.get? s0.key).isSome = true)
    (hsteps : ∀ st ∈ steps, st.ext = none ∧ st.oracle.getOk = true) :
    (runSeq steps s0 remote0).status = Status.returned ∧
    updateCalls (runSeq steps s0 remote0).trace = 0 ∧
    (runSeq steps s0 remote0).sc.active = false ∧
    (runSeq steps s0 remote0).sc = s0 ∧
    (runSeq steps s0 remote0).remote = remote0 ∧
    (runSeq steps s0 remote0).remote.get? s0.key = remote0.get? s0.key := by
  induction steps with
  | nil => simp [runSeq, updateCalls, hinit]
  | cons st rest ih =>
    have hrest := ih (fun x hx => hsteps x (List.mem_cons_of_mem st hx))
    obtain ⟨hext, hget⟩ := hsteps st (List.mem_cons_self st rest)
    obtain ⟨ext, op, ⟨g, u⟩⟩ := st
    simp only at hext hget
    subst hext hget
    cases op with
    | markActive =>
      simp only [runSeq, runOp, Option.getD_none, markActive_present s0 remote0 u hlab]
      obtain ⟨h1, h2, h3, h4, h5, h6⟩ := hrest
      refine ⟨h1, ?_, h3, h4, h5, h6⟩
      simp only [updateCalls] at h2 ⊢
      simp [List.countP_cons, Call.isUpdate, h2]
    | markPassive =>
      simp only [runSeq, runOp, Option.getD_none, markPassive_inactive s0 remote0 _ hinit]
      obtain ⟨h1, h2, h3, h4, h5, h6⟩ := hrest
      exact ⟨h1, by simpa using h2, h3, h4, h5, h6⟩

/-- Witness for C9: the label was set by a previous instance; leadership is
gained, lost, gained and lost again. -/
theorem labelled_pod_never_updated_witness :
    (runSeq [⟨none, Op.markActive, ⟨true, true⟩⟩, ⟨none, Op.markPassive, ⟨true, true⟩⟩,
             ⟨none, Op.markActive, ⟨true, true⟩⟩, ⟨none, Op.markPassive, ⟨true, true⟩⟩]
        ⟨none, "ns1", "app-0", "k", false⟩ (some [("k", "active"), ("app", "svc")])).remote
      = some [("k", "active"), ("app", "svc")] ∧
    updateCalls
        (runSeq [⟨none, Op.markActive, ⟨true, true⟩⟩, ⟨none, Op.markPassive, ⟨true, true⟩⟩,
                 ⟨none, Op.markActive, ⟨true, true⟩⟩, ⟨none, Op.markPassive, ⟨true, true⟩⟩]
          ⟨none, "ns1", "app-0", "k", false⟩ (some [("k", "active"), ("app", "svc")])).trace
      = 0 :=
  have h := labelled_pod_never_updated
    [⟨none, Op.markActive, ⟨true, true⟩⟩, ⟨none, Op.markPassive, ⟨true, true⟩⟩,
     ⟨none, Op.markActive, ⟨true, true⟩⟩, ⟨none, Op.markPassive, ⟨true, true⟩⟩]
    ⟨none, "ns1", "app-0", "k", false⟩ (some [("k", "active"), ("app", "svc")])
    (by decide) (by decide) (by decide)
  ⟨h.2.2.2.2.1, h.2.1⟩

end Apsc
